import Mathlib

/-!
Verification of the Spoiler-Shield backend against its specification.

This file gives a shallow embedding of the spoiler-bounded
retrieval-and-answer pipeline of the repository and proves (or refutes)
the specification claims about it.

Source files embedded here:
- src/services/ai.service.ts        (aiService.generateAnswer)
- src/services/questions.service.ts (questionsService CRUD adapter)
- src/utils/embedding.util.ts       (cosineSimilarity)

Modelling conventions:
- JavaScript numbers that only flow through comparisons (similarity
  scores, chapter orders, chapter limits) are modelled as rationals and
  integers; the one place where IEEE behaviour itself is at stake
  (cosineSimilarity producing NaN on a zero vector) models NaN
  explicitly as the value `none` of an `Option`.
- Nullable database columns are modelled as `Option` values; JavaScript
  truthiness tests on them are spelled out (`none` and `some ""` are the
  falsy cases of a nullable string, `none` and `some 0` those of a
  nullable number).
- `Array.prototype.sort` (ECMAScript 2019 and later) is a stable sort
  with respect to the comparator; it is modelled by
  `List.insertionSort`, which is a stable sort producing the same,
  uniquely determined, output list.
- The network effects of a pipeline invocation are modelled by an
  environment record listing the response of every external collaborator
  and by an event trace recording, in program order, every external call
  the invocation performs.
-/

/-! ### Data model (src/types/database.type.ts) -/

/-- Question lifecycle status (column `questions.status`). -/
inductive Status where
  | pending
  | answered
  | failed
deriving DecidableEq, Repr

/-- A chapter row as selected by the embeddings query of
ai.service.ts:33-45: `id`, `name`, `order`, `content`, `title_id`.
`name` and `content` are nullable text columns. -/
structure Chapter where
  id : String
  name : Option String
  order : Int
  content : Option String
  title_id : String
deriving DecidableEq, Repr

/-- A scored candidate as built in ai.service.ts:96-105: the chapter
fields plus its cosine-similarity score against the question. -/
structure ScoredChapter where
  id : String
  name : Option String
  order : Int
  content : Option String
  title_id : String
  similarity : ℚ
deriving DecidableEq, Repr

/-- The fields of a Question row that generateAnswer reads
(ai.service.ts:23): `chapter_limit` and `question_text` are nullable
(`number | null`, `string | null` in src/types/database.type.ts). -/
structure Question where
  title_id : String
  chapter_limit : Option Int
  question_text : Option String
deriving DecidableEq, Repr

/-- `ApiResponse<T>` of src/types/database.type.ts:175-180: all of
`data`, `error`, `message` are optional. -/
structure ApiResponse (α : Type) where
  success : Bool
  data : Option α := none
  error : Option String := none
  message : Option String := none
deriving DecidableEq, Repr

/-- Outcome of one awaited call to the underlying store (supabase), as
observed by a questionsService operation: the call either resolves with
data, resolves with an `error` object carrying a message, or rejects
(throws) with some exception value. -/
inductive StoreOutcome (α : Type) where
  | ok (data : α)
  | storeError (msg : String)
  | thrown (exc : String)
deriving DecidableEq, Repr

/-! ### questionsService (src/services/questions.service.ts)

Every operation wraps one store call in a try/catch and returns an
`ApiResponse`; none of them can throw.  The store call itself is
abstracted by a `StoreOutcome` argument; the request parameters
(`questionId`, payloads, filters) only flow into that call and are
elided.  Each definition mirrors one function body literally:
`storeError` takes the `if (error) return { success: false, error:
error.message }` branch, `thrown` takes the catch branch with the
operation-specific fixed message (the exception value is discarded
there, i.e. swallowed). -/

namespace questionsService

/-- questions.service.ts:6-35. -/
def createQuestion (o : StoreOutcome Question) : ApiResponse Question :=
  match o with
  | .ok data => { success := true, data := some data, message := some "Question created successfully" }
  | .storeError m => { success := false, error := some m }
  | .thrown _ => { success := false, error := some "Failed to create question" }

/-- questions.service.ts:38-64.  On success the source returns
`data || []`, so a null row set still yields `success: true` with an
empty list. -/
def getUserQuestions (o : StoreOutcome (Option (List Question))) : ApiResponse (List Question) :=
  match o with
  | .ok data => { success := true, data := some (data.getD []) }
  | .storeError m => { success := false, error := some m }
  | .thrown _ => { success := false, error := some "Failed to fetch user questions" }

/-- questions.service.ts:67-87. -/
def getQuestionById (o : StoreOutcome Question) : ApiResponse Question :=
  match o with
  | .ok data => { success := true, data := some data }
  | .storeError m => { success := false, error := some m }
  | .thrown _ => { success := false, error := some "Failed to fetch question" }

/-- questions.service.ts:90-116. -/
def updateQuestionAnswer (o : StoreOutcome Question) : ApiResponse Question :=
  match o with
  | .ok data => { success := true, data := some data, message := some "Question answered successfully" }
  | .storeError m => { success := false, error := some m }
  | .thrown _ => { success := false, error := some "Failed to update question answer" }

/-- questions.service.ts:119-147. -/
def updateQuestionStatus (o : StoreOutcome Question) : ApiResponse Question :=
  match o with
  | .ok data => { success := true, data := some data, message := some "Question status updated successfully" }
  | .storeError m => { success := false, error := some m }
  | .thrown _ => { success := false, error := some "Failed to update question status" }

/-- questions.service.ts:150-169 (no data payload on success). -/
def deleteQuestion (o : StoreOutcome Unit) : ApiResponse Unit :=
  match o with
  | .ok _ => { success := true, message := some "Question deleted successfully" }
  | .storeError m => { success := false, error := some m }
  | .thrown _ => { success := false, error := some "Failed to delete question" }

/-- questions.service.ts:172-196. -/
def getQuestionsByStatus (o : StoreOutcome (Option (List Question))) : ApiResponse (List Question) :=
  match o with
  | .ok data => { success := true, data := some (data.getD []) }
  | .storeError m => { success := false, error := some m }
  | .thrown _ => { success := false, error := some "Failed to fetch questions by status" }

/-- questions.service.ts:199-223. -/
def getRecentQuestions (o : StoreOutcome (Option (List Question))) : ApiResponse (List Question) :=
  match o with
  | .ok data => { success := true, data := some (data.getD []) }
  | .storeError m => { success := false, error := some m }
  | .thrown _ => { success := false, error := some "Failed to fetch recent questions" }

/-- questions.service.ts:226-247. -/
def getQuestionsByTitle (o : StoreOutcome (Option (List Question))) : ApiResponse (List Question) :=
  match o with
  | .ok data => { success := true, data := some (data.getD []) }
  | .storeError m => { success := false, error := some m }
  | .thrown _ => { success := false, error := some "Failed to fetch questions by title" }

end questionsService

/-! ### Cosine similarity (src/utils/embedding.util.ts:37-42)

The source computes `dot / (magA * magB)` over IEEE doubles with no
guard.  When either vector is all zeros, both the dot product and the
product of magnitudes are zero, so the JavaScript division is `0 / 0`,
which is NaN.  The embedding therefore returns an `Option ℝ`:
`some r` for the real quotient when the denominator is non-zero, and
`none` for the NaN produced when it is zero. -/

/-- `vecA.reduce((sum, a, i) => sum + a * vecB[i], 0)`
(embedding.util.ts:38), for vectors of equal dimension. -/
noncomputable def dotProduct (vecA vecB : List ℝ) : ℝ :=
  (List.zipWith (fun a b => a * b) vecA vecB).foldl (fun sum x => sum + x) 0

/-- `Math.sqrt(vec.reduce((sum, a) => sum + a * a, 0))`
(embedding.util.ts:39-40). -/
noncomputable def magnitude (vec : List ℝ) : ℝ :=
  Real.sqrt (vec.foldl (fun sum a => sum + a * a) 0)

/-- embedding.util.ts:37-42.  `none` models the NaN that the unguarded
JavaScript division produces when `magA * magB` is zero (the dot
product is then necessarily zero as well, so the division is `0 / 0`). -/
noncomputable def cosineSimilarity (vecA vecB : List ℝ) : Option ℝ :=
  if magnitude vecA * magnitude vecB = 0 then none
  else some (dotProduct vecA vecB / (magnitude vecA * magnitude vecB))

/-! ### Boundary filter (ai.service.ts:73-81)

The guard is `chapter?.order <= (chapter_limit || Infinity)`.  Under
JavaScript truthiness, `chapter_limit || Infinity` is `Infinity` when
`chapter_limit` is `null` or `0`, and `chapter_limit` itself for any
other number.  `effectiveLimit` returns `none` for the `Infinity` case
(no upper bound) and `some l` otherwise. -/

/-- The effective upper bound used by the filter: `none` means
`Infinity` (every order passes). -/
def effectiveLimit (chapter_limit : Option Int) : Option Int :=
  match chapter_limit with
  | none => none
  | some l => if l = 0 then none else some l

/-- One evaluation of the guard `chapter?.order <= (chapter_limit || Infinity)`. -/
def withinLimit (chapter_limit : Option Int) (ord : Int) : Bool :=
  match effectiveLimit chapter_limit with
  | none => true
  | some l => ord ≤ l

/-- The chapters retained by the boundary filter of ai.service.ts:73-81
(the per-row push guarded by `withinLimit`). -/
def boundaryFilter (chapter_limit : Option Int) (cs : List Chapter) : List Chapter :=
  cs.filter (fun c => withinLimit chapter_limit c.order)

/-! ### Ranker (ai.service.ts:96-113) -/

/-- ai.service.ts:96-105: attach a similarity score to each retained
chapter.  The score function abstracts
`cosineSimilarity(questionEmbedding, item.embedding)`; the claims about
the ranker and assembler hold for every score assignment. -/
def scoreChapters (score : Chapter → ℚ) (cs : List Chapter) : List ScoredChapter :=
  cs.map (fun c => { id := c.id, name := c.name, order := c.order,
                     content := c.content, title_id := c.title_id, similarity := score c })

/-- The preorder realised by the comparator
`(a, b) => b.similarity - a.similarity` (ai.service.ts:108): `a` may
stay before `b` exactly when the comparator is `<= 0`. -/
def simDesc (x y : ScoredChapter) : Prop := y.similarity ≤ x.similarity

instance : DecidableRel simDesc :=
  fun x y => (inferInstance : Decidable (y.similarity ≤ x.similarity))

instance : IsTotal ScoredChapter simDesc :=
  ⟨fun x y => le_total y.similarity x.similarity⟩

instance : IsTrans ScoredChapter simDesc :=
  ⟨fun _ _ _ h₁ h₂ => le_trans h₂ h₁⟩

/-- `.sort((a, b) => b.similarity - a.similarity)` (ai.service.ts:108):
the stable descending-by-similarity sort. -/
def rankerSort (cs : List ScoredChapter) : List ScoredChapter :=
  List.insertionSort simDesc cs

/-- `.slice(0, 5)` after the sort (ai.service.ts:107-109): the
`relevantChapters` selection. -/
def relevantChapters (cs : List ScoredChapter) : List ScoredChapter :=
  (rankerSort cs).take 5

/-! ### Context assembler (ai.service.ts:120-127) -/

/-- The preorder realised by the comparator `(a, b) => a.order - b.order`
(ai.service.ts:121). -/
def ordAsc (x y : ScoredChapter) : Prop := x.order ≤ y.order

instance : DecidableRel ordAsc :=
  fun x y => (inferInstance : Decidable (x.order ≤ y.order))

instance : IsTotal ScoredChapter ordAsc :=
  ⟨fun x y => le_total x.order y.order⟩

instance : IsTrans ScoredChapter ordAsc :=
  ⟨fun _ _ _ h₁ h₂ => le_trans h₁ h₂⟩

/-- `.sort((a, b) => a.order - b.order)` (ai.service.ts:121): the stable
ascending-by-order re-sort of the selection. -/
def contextSort (cs : List ScoredChapter) : List ScoredChapter :=
  List.insertionSort ordAsc cs

/-- ai.service.ts:122-126: one rendered block.  `chapter.name ||
`Chapter n`` falls back when the name is null or empty, and
`chapter.content || ""` renders a null content as the empty string. -/
def renderChapter (c : ScoredChapter) : String :=
  let chapterName :=
    match c.name with
    | some n => if n = "" then "Chapter " ++ toString c.order else n
    | none => "Chapter " ++ toString c.order
  let chapterContent :=
    match c.content with
    | some s => s
    | none => ""
  "Chapter " ++ toString c.order ++ ": " ++ chapterName ++ "\n" ++ chapterContent

/-- ai.service.ts:120-127: the assembled context block. -/
def contextText (cs : List ScoredChapter) : String :=
  String.intercalate "\n\n" ((contextSort cs).map renderChapter)

/-- The retrieval side of one pipeline run, as a pure data flow: filter
the candidates at the spoiler boundary, score them, rank and select
(ai.service.ts:73-113). -/
def pipelineSelection (chapter_limit : Option Int) (score : Chapter → ℚ)
    (candidates : List Chapter) : List ScoredChapter :=
  relevantChapters (scoreChapters score (boundaryFilter chapter_limit candidates))

/-- The context block assembled from a pipeline run
(ai.service.ts:120-127 applied to the selection). -/
def pipelineContext (chapter_limit : Option Int) (score : Chapter → ℚ)
    (candidates : List Chapter) : String :=
  contextText (pipelineSelection chapter_limit score candidates)

/-! ### The lifecycle of one generateAnswer invocation
(src/services/ai.service.ts:13-172)

The invocation is a sequential chain of external calls.  An `Env`
record fixes the response of every collaborator for the run; the model
returns the trace of external calls actually performed (in program
order) together with the result: the answer text, or the error thrown.
Status and answer writes go through questionsService, which never
throws (see the questionsService definitions above); the source
discards the `ApiResponse` each such write returns, so the write
outcomes sit in the `Env` and are discarded in the same places. -/

/-- One external call performed by the invocation. -/
inductive Event where
  | fetchQuestion
  | vectorStoreRead
  | embeddingCall
  | statusWrite (s : Status)
  | generationCall
  | answerWrite (text : String)
deriving DecidableEq, Repr

/-- The errors generateAnswer can throw, one constructor per `throw`
site (the source message is given in parentheses):
- `questionNotFound`: ai.service.ts:20 ("Question not found: ...")
- `embeddingsFetchFailed`: ai.service.ts:49 (fetch error or empty row set)
- `invalidEmbeddingFormat`: ai.service.ts:70 ("Invalid embedding format in DB")
- `noChaptersWithinLimit`: ai.service.ts:84 ("No chapters available within chapter limit")
- `emptyQuestionText`: ai.service.ts:91 ("Question text is null or empty")
- `embeddingProviderFailed`: getEmbedding rethrow, embedding.util.ts:32
- `noRelevantChapters`: ai.service.ts:112 ("No relevant chapters found ...")
- `generationProviderFailed`: the chat-completion call rejecting, ai.service.ts:149
- `noAnswerGenerated`: ai.service.ts:158 ("No answer generated by AI") -/
inductive PipelineError where
  | questionNotFound
  | embeddingsFetchFailed
  | invalidEmbeddingFormat
  | noChaptersWithinLimit
  | emptyQuestionText
  | embeddingProviderFailed
  | noRelevantChapters
  | generationProviderFailed
  | noAnswerGenerated
deriving DecidableEq, Repr

/-- One row of the `chapter_embeddings` join (ai.service.ts:33-45).
`embedding` is `none` when the stored serialized form fails to parse
(the `JSON.parse` throw of ai.service.ts:66-70); the joined chapter is
always present (inner join). -/
structure EmbRow where
  embedding : Option (List ℚ)
  chapter : Chapter
deriving DecidableEq, Repr

/-- The forEach of ai.service.ts:60-81: parse every row (any parse
failure aborts the whole run) and keep the chapters passing the
boundary filter, in row order. -/
def parseWithinLimit (chapter_limit : Option Int) :
    List EmbRow → Option (List (Chapter × List ℚ))
  | [] => some []
  | r :: rs =>
    match r.embedding with
    | none => none
    | some e =>
      match parseWithinLimit chapter_limit rs with
      | none => none
      | some rest =>
        if withinLimit chapter_limit r.chapter.order then some ((r.chapter, e) :: rest)
        else some rest

/-- The prompt template of ai.service.ts:131-144 (wording abbreviated;
only its data dependencies matter here).  `chapter_limit || "limit"`
falls back for a null or zero limit. -/
def promptText (ctx : String) (question_text : String) (chapter_limit : Option Int) : String :=
  "Use ONLY the information provided in the chapters below to answer the question.\n"
    ++ "### Available Chapters (selected based on relevance):\n" ++ ctx
    ++ "\n\n### Question:\n" ++ question_text
    ++ "\n\n### Notes:\n- Avoid spoilers from content beyond Chapter "
    ++ (match chapter_limit with
        | none => "limit"
        | some l => if l = 0 then "limit" else toString l)

/-- The responses of every external collaborator for one run. -/
structure Env where
  /-- Outcome of the store read behind
  `questionsService.getQuestionById` (ai.service.ts:16). -/
  questionOutcome : StoreOutcome Question
  /-- The `chapter_embeddings` query of ai.service.ts:33-45: `none`
  models `embeddingsError`, `some rows` a resolved row set. -/
  embeddingsData : Option (List EmbRow)
  /-- `getEmbedding(question_text)` (ai.service.ts:94): `none` models
  the helper throwing. -/
  questionEmbedding : Option (List ℚ)
  /-- The similarity score assigned to a parsed chapter embedding given
  the question embedding; abstracts `cosineSimilarity`
  (ai.service.ts:103) over IEEE vectors. -/
  similarity : List ℚ → List ℚ → ℚ
  /-- The chat-completion call (ai.service.ts:149-156): `none` models
  the call rejecting, `some c` a response whose
  `choices[0]?.message?.content` is `c`. -/
  generation : Option (Option String)
  /-- Store outcome of `updateQuestionStatus(questionId, "pending")`
  (ai.service.ts:146); its ApiResponse is discarded by the source. -/
  pendingWriteOutcome : StoreOutcome Question
  /-- Store outcome of `updateQuestionAnswer` (ai.service.ts:163);
  discarded by the source. -/
  answerUpdateOutcome : StoreOutcome Question
  /-- Store outcome of `updateQuestionStatus(questionId, "answered")`
  (ai.service.ts:164); discarded by the source. -/
  answeredWriteOutcome : StoreOutcome Question
  /-- Store outcome of `updateQuestionStatus(questionId, "failed")` in
  the catch handler (ai.service.ts:169); discarded by the source. -/
  failedWriteOutcome : StoreOutcome Question

/-- ai.service.ts:146-166: from the pending write to the return of the
answer.  The trace prefix so far is
`[fetchQuestion, vectorStoreRead, embeddingCall]`. -/
def afterPrompt (env : Env) : List Event × Except PipelineError String :=
  let _pendingResponse := questionsService.updateQuestionStatus env.pendingWriteOutcome
  match env.generation with
  | none =>
    ([Event.fetchQuestion, Event.vectorStoreRead, Event.embeddingCall,
      Event.statusWrite Status.pending, Event.generationCall],
     Except.error PipelineError.generationProviderFailed)
  | some content =>
    match content with
    | none =>
      ([Event.fetchQuestion, Event.vectorStoreRead, Event.embeddingCall,
        Event.statusWrite Status.pending, Event.generationCall],
       Except.error PipelineError.noAnswerGenerated)
    | some answer =>
      if answer = "" then
        ([Event.fetchQuestion, Event.vectorStoreRead, Event.embeddingCall,
          Event.statusWrite Status.pending, Event.generationCall],
         Except.error PipelineError.noAnswerGenerated)
      else
        let _answerResponse := questionsService.updateQuestionAnswer env.answerUpdateOutcome
        let _answeredResponse := questionsService.updateQuestionStatus env.answeredWriteOutcome
        ([Event.fetchQuestion, Event.vectorStoreRead, Event.embeddingCall,
          Event.statusWrite Status.pending, Event.generationCall,
          Event.answerWrite answer, Event.statusWrite Status.answered],
         Except.ok answer)

/-- ai.service.ts:89-144: question-text check, question embedding,
scoring, selection, context and prompt construction.  The trace prefix
so far is `[fetchQuestion, vectorStoreRead]`. -/
def afterChapters (env : Env) (q : Question) (within : List (Chapter × List ℚ)) :
    List Event × Except PipelineError String :=
  if q.question_text = none ∨ q.question_text = some "" then
    ([Event.fetchQuestion, Event.vectorStoreRead], Except.error PipelineError.emptyQuestionText)
  else
    match env.questionEmbedding with
    | none =>
      ([Event.fetchQuestion, Event.vectorStoreRead, Event.embeddingCall],
       Except.error PipelineError.embeddingProviderFailed)
    | some qe =>
      let scored := within.map (fun p =>
        { id := p.1.id, name := p.1.name, order := p.1.order, content := p.1.content,
          title_id := p.1.title_id, similarity := env.similarity qe p.2 : ScoredChapter })
      let relevant := relevantChapters scored
      if relevant.isEmpty then
        ([Event.fetchQuestion, Event.vectorStoreRead, Event.embeddingCall],
         Except.error PipelineError.noRelevantChapters)
      else
        let ctx := contextText relevant
        let _prompt := promptText ctx (q.question_text.getD "") q.chapter_limit
        afterPrompt env

/-- ai.service.ts:30-87: the embeddings fetch, the parse-and-filter
pass and the empty-candidate check.  The trace prefix so far is
`[fetchQuestion]`. -/
def afterQuestion (env : Env) (q : Question) : List Event × Except PipelineError String :=
  match env.embeddingsData with
  | none =>
    ([Event.fetchQuestion, Event.vectorStoreRead], Except.error PipelineError.embeddingsFetchFailed)
  | some rows =>
    if rows.isEmpty then
      ([Event.fetchQuestion, Event.vectorStoreRead], Except.error PipelineError.embeddingsFetchFailed)
    else
      match parseWithinLimit q.chapter_limit rows with
      | none =>
        ([Event.fetchQuestion, Event.vectorStoreRead], Except.error PipelineError.invalidEmbeddingFormat)
      | some within =>
        if within.isEmpty then
          ([Event.fetchQuestion, Event.vectorStoreRead], Except.error PipelineError.noChaptersWithinLimit)
        else
          afterChapters env q within

/-- The try block of generateAnswer (ai.service.ts:14-166).  The
not-found guard mirrors `!questionResponse.success ||
!questionResponse.data` (ai.service.ts:18). -/
def pipelineBody (env : Env) : List Event × Except PipelineError String :=
  let questionResponse := questionsService.getQuestionById env.questionOutcome
  match questionResponse.data, questionResponse.success with
  | none, _ => ([Event.fetchQuestion], Except.error PipelineError.questionNotFound)
  | some _, false => ([Event.fetchQuestion], Except.error PipelineError.questionNotFound)
  | some q, true => afterQuestion env q

/-- generateAnswer with its catch handler (ai.service.ts:167-171): on
any error the handler performs one more status write (`failed`),
discards its ApiResponse, and rethrows the original error. -/
def generateAnswer (env : Env) : List Event × Except PipelineError String :=
  match pipelineBody env with
  | (trace, Except.ok answer) => (trace, Except.ok answer)
  | (trace, Except.error e) =>
    let _failedResponse := questionsService.updateQuestionStatus env.failedWriteOutcome
    (trace ++ [Event.statusWrite Status.failed], Except.error e)

/-- `precedesB a b t` holds when some occurrence of `a` comes strictly
before some occurrence of `b` in the trace `t`. -/
def precedesB (a b : Event) : List Event → Bool
  | [] => false
  | x :: xs => (x = a && xs.contains b) || precedesB a b xs

/-! ### Concrete inputs used by witnesses and counterexamples -/

/-- The question of the §8 scenario: `chapter_limit = 3`. -/
def qEx : Question :=
  { title_id := "t1", chapter_limit := some 3, question_text := some "Who is the hero?" }

/-- Chapter 4 of the §8 scenario: beyond the limit, its content holds
the word the context must never contain. -/
def chEx4 : Chapter :=
  { id := "c4", name := some "Four", order := 4,
    content := some "the murderer is revealed", title_id := "t1" }

/-- The five chapters of the §8 scenario, ordered 1..5. -/
def exChapters : List Chapter :=
  [ { id := "c1", name := some "One", order := 1, content := some "intro", title_id := "t1" },
    { id := "c2", name := some "Two", order := 2, content := some "middle", title_id := "t1" },
    { id := "c3", name := some "Three", order := 3, content := some "turn", title_id := "t1" },
    chEx4,
    { id := "c5", name := some "Five", order := 5, content := some "ending", title_id := "t1" } ]

/-- A concrete score assignment (the spoiler-safety claim holds for
every assignment). -/
def exScore : Chapter → ℚ := fun _ => 1

/-- The first scenario chapter, also used as the single stored row of
the lifecycle environments below. -/
def chEx1 : Chapter :=
  { id := "c1", name := some "One", order := 1, content := some "intro", title_id := "t1" }

/-- One well-formed embeddings row. -/
def rowEx : EmbRow := { embedding := some [1], chapter := chEx1 }

/-- An environment in which every collaborator succeeds. -/
def envOK : Env :=
  { questionOutcome := StoreOutcome.ok qEx,
    embeddingsData := some [rowEx],
    questionEmbedding := some [1],
    similarity := fun _ _ => 1,
    generation := some (some "The hero is Alice"),
    pendingWriteOutcome := StoreOutcome.ok qEx,
    answerUpdateOutcome := StoreOutcome.ok qEx,
    answeredWriteOutcome := StoreOutcome.ok qEx,
    failedWriteOutcome := StoreOutcome.ok qEx }

/-- An environment in which the question row does not resolve. -/
def envNF : Env := { envOK with questionOutcome := StoreOutcome.storeError "Row not found" }

/-- An environment in which the generation provider answers with an
empty string. -/
def envEmptyGen : Env := { envOK with generation := some (some "") }

/-- Two equal-similarity candidates; the later chapter comes first in
the ranker input. -/
def tieA : ScoredChapter :=
  { id := "a", name := some "Alpha", order := 5, content := some "later", title_id := "t1",
    similarity := 1 }

/-- See `tieA`. -/
def tieB : ScoredChapter :=
  { id := "b", name := some "Beta", order := 1, content := some "earlier", title_id := "t1",
    similarity := 1 }

/-- A two-element ranker selection, similarity rank opposite to
narrative order. -/
def selEx : List ScoredChapter :=
  [ { id := "s2", name := some "Beta", order := 2, content := some "second text", title_id := "t1",
      similarity := 3 },
    { id := "s1", name := some "Alpha", order := 1, content := some "first text", title_id := "t1",
      similarity := 1 } ]

/-! ### Helper lemmas -/

/-- The ranker only selects among its input candidates. -/
lemma mem_of_mem_relevantChapters {c : ScoredChapter} {cs : List ScoredChapter}
    (h : c ∈ relevantChapters cs) : c ∈ cs := by
  have h1 : c ∈ rankerSort cs := (List.take_sublist 5 (rankerSort cs)).subset h
  exact (List.perm_insertionSort simDesc cs).subset h1

/-- The context assembler only re-orders its input selection. -/
lemma mem_of_mem_contextSort {c : ScoredChapter} {cs : List ScoredChapter}
    (h : c ∈ contextSort cs) : c ∈ cs :=
  (List.perm_insertionSort ordAsc cs).subset h

/-- With a non-zero limit `l`, the guard of ai.service.ts:75 is the
plain comparison with `l`. -/
lemma withinLimit_some_of_ne_zero {l : Int} (hl : l ≠ 0) (ord : Int) :
    withinLimit (some l) ord = decide (ord ≤ l) := by
  unfold withinLimit effectiveLimit
  simp [if_neg hl]

/-- Every scored candidate surviving the boundary filter at a non-zero
limit `l` has order at most `l`. -/
lemma order_le_of_mem_scored_boundary {sc : ScoredChapter} {l : Int} (hl : l ≠ 0)
    {score : Chapter → ℚ} {candidates : List Chapter}
    (h : sc ∈ scoreChapters score (boundaryFilter (some l) candidates)) : sc.order ≤ l := by
  obtain ⟨c, hc, rfl⟩ := List.mem_map.mp h
  have hfil : withinLimit (some l) c.order = true := (List.mem_filter.mp hc).2
  rw [withinLimit_some_of_ne_zero hl] at hfil
  simpa using hfil

/-- Stability of the ranker sort: within any one similarity class the
sorted list keeps the input order. -/
lemma rankerSort_filter_stable (l : List ScoredChapter) (s : ℚ) :
    (rankerSort l).filter (fun c => decide (c.similarity = s)) =
      l.filter (fun c => decide (c.similarity = s)) := by
  have hpair : (l.filter (fun c => decide (c.similarity = s))).Pairwise simDesc := by
    apply List.pairwise_of_forall_mem_list
    intro a ha b hb
    have ha₂ : a.similarity = s := of_decide_eq_true (List.mem_filter.mp ha).2
    have hb₂ : b.similarity = s := of_decide_eq_true (List.mem_filter.mp hb).2
    unfold simDesc
    rw [ha₂, hb₂]
  have hsub : List.Sublist (l.filter (fun c => decide (c.similarity = s))) (rankerSort l) :=
    List.sublist_insertionSort hpair (List.filter_sublist l)
  have hidem :
      (l.filter (fun c => decide (c.similarity = s))).filter (fun c => decide (c.similarity = s)) =
        l.filter (fun c => decide (c.similarity = s)) :=
    List.filter_eq_self.mpr fun a ha => (List.mem_filter.mp ha).2
  have hsub₂ : List.Sublist (l.filter (fun c => decide (c.similarity = s)))
      ((rankerSort l).filter (fun c => decide (c.similarity = s))) := by
    have h₃ := hsub.filter (fun c => decide (c.similarity = s))
    rwa [hidem] at h₃
  have hlen : ((rankerSort l).filter (fun c => decide (c.similarity = s))).length =
      (l.filter (fun c => decide (c.similarity = s))).length :=
    ((List.perm_insertionSort simDesc l).filter (fun c => decide (c.similarity = s))).length_eq
  exact (hsub₂.eq_of_length hlen.symm).symm

/-- The catch handler either leaves the trace alone (success) or
appends exactly one failed-status write. -/
lemma generateAnswer_trace (env : Env) :
    (generateAnswer env).1 = (pipelineBody env).1 ∨
    (generateAnswer env).1 = (pipelineBody env).1 ++ [Event.statusWrite Status.failed] := by
  rcases hpb : pipelineBody env with ⟨t, r⟩
  cases r with
  | ok s => left; simp [generateAnswer, hpb]
  | error e => right; simp [generateAnswer, hpb]

/-- A run whose trace holds the generation call reached the
`afterPrompt` stage, and its outcome is that of the stage. -/
lemma pipelineBody_eq_afterPrompt (env : Env)
    (h : Event.generationCall ∈ (pipelineBody env).1) :
    pipelineBody env = afterPrompt env := by
  obtain ⟨qo, ed, qe, simf, gen, po, ao, awo, fo⟩ := env
  cases qo with
  | storeError m => simp [pipelineBody, questionsService.getQuestionById] at h
  | thrown m => simp [pipelineBody, questionsService.getQuestionById] at h
  | ok q =>
    simp only [pipelineBody, questionsService.getQuestionById] at h ⊢
    cases ed with
    | none => simp [afterQuestion] at h
    | some rows =>
      by_cases hre : rows.isEmpty
      · simp [afterQuestion, hre] at h
      · simp only [afterQuestion, hre, if_false, Bool.false_eq_true, ite_false] at h ⊢
        rcases hpw : parseWithinLimit q.chapter_limit rows with _ | within
        · simp [hpw] at h
        · simp only [hpw] at h ⊢
          by_cases hwe : within.isEmpty
          · simp [hwe] at h
          · simp only [hwe, if_false, Bool.false_eq_true, ite_false] at h ⊢
            by_cases hqt : q.question_text = none ∨ q.question_text = some ""
            · simp [afterChapters, hqt] at h
            · simp only [afterChapters, hqt, if_false, ite_false] at h ⊢
              cases qe with
              | none => simp at h
              | some qvec =>
                simp only [] at h ⊢
                by_cases hrel : (relevantChapters (within.map (fun p =>
                    { id := p.1.id, name := p.1.name, order := p.1.order,
                      content := p.1.content, title_id := p.1.title_id,
                      similarity := simf qvec p.2 : ScoredChapter }))).isEmpty
                · simp [hrel] at h
                · simp only [hrel, if_false, Bool.false_eq_true, ite_false] at h ⊢

/-! ### The claims -/

/-- C1 (spoiler-safety): for every question with a given (non-zero)
`chapter_limit = l`, every score assignment and every candidate set,
the assembled context block is exactly the rendering of a chapter list
in which every chapter has `order ≤ l`; in particular no chapter with
`order > l` contributes its content to the context.  (For a null or
zero limit the filter fails open; that is the defect recorded with
claim C2.) -/
theorem spoiler_safe_context (l : Int) (hl : l ≠ 0) (score : Chapter → ℚ)
    (candidates : List Chapter) :
    (∀ c ∈ pipelineSelection (some l) score candidates, c.order ≤ l) ∧
    pipelineContext (some l) score candidates =
      String.intercalate "\n\n"
        ((contextSort (pipelineSelection (some l) score candidates)).map renderChapter) ∧
    ∀ c ∈ contextSort (pipelineSelection (some l) score candidates), c.order ≤ l := by
  have hsel : ∀ c ∈ pipelineSelection (some l) score candidates, c.order ≤ l := by
    intro c hc
    unfold pipelineSelection at hc
    exact order_le_of_mem_scored_boundary hl (mem_of_mem_relevantChapters hc)
  exact ⟨hsel, rfl, fun c hc => hsel c (mem_of_mem_contextSort hc)⟩

/-- C1 witness: the §8 scenario (`chapter_limit = 3`, chapters 1..5,
chapter 4 carrying the spoiler). -/
theorem spoiler_safe_context_witness :
    (∀ c ∈ pipelineSelection (some 3) exScore exChapters, c.order ≤ 3) ∧
    pipelineContext (some 3) exScore exChapters =
      String.intercalate "\n\n"
        ((contextSort (pipelineSelection (some 3) exScore exChapters)).map renderChapter) ∧
    ∀ c ∈ contextSort (pipelineSelection (some 3) exScore exChapters), c.order ≤ 3 :=
  spoiler_safe_context 3 (by decide) exScore exChapters

/-- C2 (code bug, fail-open boundary): at the failing inputs
`chapter_limit = null` and `chapter_limit = 0` the boundary filter of
ai.service.ts:75 retains a chapter of order 4 — it retains every
chapter (`chapter_limit || Infinity` evaluates to `Infinity`), where
the claim requires zero chapters. -/
theorem boundaryFilter_fails_open :
    boundaryFilter none [chEx4] = [chEx4] ∧ boundaryFilter (some 0) [chEx4] = [chEx4] :=
  ⟨rfl, rfl⟩

/-- C6 (code bug, NaN on zero vector): `cosineSimilarity([0], [1])` is
the JavaScript division `0 / 0`, i.e. NaN (modelled `none`), not the
`-1` the claim requires; embedding.util.ts:37-42 has no zero-vector
guard. -/
theorem cosineSimilarity_zero_vector_nan : cosineSimilarity [0] [1] = none := by
  have hm : magnitude [0] = 0 := by
    unfold magnitude
    simp [List.foldl, Real.sqrt_eq_zero']
  unfold cosineSimilarity
  rw [hm, zero_mul, if_pos rfl]

/-- C7 counterexample: two candidates with equal similarity, the later
chapter (order 5) first in the ranker input.  The stable sort keeps it
first, so the output is not ordered with ties broken by ascending
chapter order as the claim states. -/
theorem ranker_tiebreak_counterexample :
    relevantChapters [tieA, tieB] = [tieA, tieB] ∧
    tieA.similarity = tieB.similarity ∧ tieB.order < tieA.order ∧
    ¬ List.Pairwise
        (fun x y : ScoredChapter =>
          y.similarity < x.similarity ∨ (x.similarity = y.similarity ∧ x.order ≤ y.order))
        (relevantChapters [tieA, tieB]) := by
  decide

/-- C7 (amended): the ranker output has at most `K = 5` elements and at
most as many elements as its input, and is sorted non-strictly
descending by similarity; candidates of equal similarity keep their
input order (the comparator sort of ai.service.ts:108 is stable), they
are not re-ordered by ascending chapter order. -/
theorem ranker_selection_spec (cs : List ScoredChapter) :
    (relevantChapters cs).length ≤ 5 ∧
    (relevantChapters cs).length ≤ cs.length ∧
    List.Pairwise simDesc (relevantChapters cs) ∧
    ∀ s : ℚ, (rankerSort cs).filter (fun c => decide (c.similarity = s)) =
      cs.filter (fun c => decide (c.similarity = s)) := by
  refine ⟨?_, ?_, ?_, rankerSort_filter_stable cs⟩
  · unfold relevantChapters
    rw [List.length_take]
    exact min_le_left _ _
  · unfold relevantChapters
    calc ((rankerSort cs).take 5).length
        ≤ (rankerSort cs).length := (List.take_sublist _ _).length_le
      _ = cs.length := (List.perm_insertionSort simDesc cs).length_eq
  · exact List.Pairwise.sublist (List.take_sublist _ _) (List.sorted_insertionSort simDesc cs)

/-- C8 (context assembly): for a non-empty selection whose names are
present and non-empty and whose contents are present, the assembled
context is the blank-line join of the selection re-sorted ascending by
chapter order (independent of similarity rank), each chapter rendered
as "Chapter order: name", a newline and the content. -/
theorem context_assembly_spec (sel : List ScoredChapter) (hne : sel ≠ [])
    (hname : ∀ c ∈ sel, c.name ≠ none ∧ c.name ≠ some "")
    (hcontent : ∀ c ∈ sel, c.content ≠ none) :
    (contextSort sel).Perm sel ∧
    List.Pairwise ordAsc (contextSort sel) ∧
    contextText sel =
      String.intercalate "\n\n"
        ((contextSort sel).map (fun c =>
          "Chapter " ++ toString c.order ++ ": " ++ c.name.getD "" ++ "\n" ++ c.content.getD "")) := by
  refine ⟨List.perm_insertionSort ordAsc sel, List.sorted_insertionSort ordAsc sel, ?_⟩
  unfold contextText
  congr 1
  apply List.map_congr_left
  intro c hc
  obtain ⟨hn1, hn2⟩ := hname c (mem_of_mem_contextSort hc)
  have hc3 := hcontent c (mem_of_mem_contextSort hc)
  unfold renderChapter
  rcases hn : c.name with _ | n
  · exact absurd hn hn1
  · rcases hco : c.content with _ | t
    · exact absurd hco hc3
    · have hne' : n ≠ "" := by
        rintro rfl
        exact hn2 hn
      simp [hn, hco, hne']

/-- C8 witness: a two-chapter selection given in descending similarity
and ascending narrative order. -/
theorem context_assembly_spec_witness :
    (contextSort selEx).Perm selEx ∧
    List.Pairwise ordAsc (contextSort selEx) ∧
    contextText selEx =
      String.intercalate "\n\n"
        ((contextSort selEx).map (fun c =>
          "Chapter " ++ toString c.order ++ ": " ++ c.name.getD "" ++ "\n" ++ c.content.getD "")) :=
  context_assembly_spec selEx (by decide) (by decide) (by decide)

/-- C3 counterexample: in a fully successful invocation the
vector-store read and the question-embedding call both occur, the
pending write occurs, and the pending write precedes neither of them —
it comes after both, contradicting "pending is set before any external
call". -/
theorem pending_write_order_counterexample :
    Event.vectorStoreRead ∈ (generateAnswer envOK).1 ∧
    Event.embeddingCall ∈ (generateAnswer envOK).1 ∧
    Event.statusWrite Status.pending ∈ (generateAnswer envOK).1 ∧
    precedesB (Event.statusWrite Status.pending) Event.vectorStoreRead
      (generateAnswer envOK).1 = false ∧
    precedesB (Event.statusWrite Status.pending) Event.embeddingCall
      (generateAnswer envOK).1 = false := by
  decide

/-- C3 (amended): the pending write is performed, unconditionally and
regardless of prior status, in exactly those invocations that reach
the generation call; it comes after the vector-store read and the
question-embedding call and immediately before the generation call. -/
theorem pending_write_position (env : Env)
    (h : Event.generationCall ∈ (generateAnswer env).1) :
    ∃ rest, (generateAnswer env).1 =
      [Event.fetchQuestion, Event.vectorStoreRead, Event.embeddingCall,
       Event.statusWrite Status.pending, Event.generationCall] ++ rest := by
  have hmem : Event.generationCall ∈ (pipelineBody env).1 := by
    rcases generateAnswer_trace env with ht | ht
    · rwa [ht] at h
    · rw [ht] at h
      rcases List.mem_append.mp h with h₁ | h₁
      · exact h₁
      · simp at h₁
  have hbp := pipelineBody_eq_afterPrompt env hmem
  have hap : ∃ rest₀, (afterPrompt env).1 =
      [Event.fetchQuestion, Event.vectorStoreRead, Event.embeddingCall,
       Event.statusWrite Status.pending, Event.generationCall] ++ rest₀ := by
    rcases hg : env.generation with _ | c
    · exact ⟨[], by simp [afterPrompt, hg]⟩
    · rcases c with _ | s
      · exact ⟨[], by simp [afterPrompt, hg]⟩
      · by_cases hs : s = ""
        · exact ⟨[], by simp [afterPrompt, hg, hs]⟩
        · exact ⟨[Event.answerWrite s, Event.statusWrite Status.answered],
            by simp [afterPrompt, hg, hs]⟩
  obtain ⟨rest₀, hap⟩ := hap
  rcases generateAnswer_trace env with ht | ht
  · exact ⟨rest₀, by rw [ht, hbp, hap]⟩
  · exact ⟨rest₀ ++ [Event.statusWrite Status.failed],
      by rw [ht, hbp, hap, List.append_assoc]⟩

/-- C3 witness: the fully successful environment reaches the
generation call, so its trace starts with the five-call prefix ending
in the pending write and the generation call. -/
theorem pending_write_position_witness :
    ∃ rest, (generateAnswer envOK).1 =
      [Event.fetchQuestion, Event.vectorStoreRead, Event.embeddingCall,
       Event.statusWrite Status.pending, Event.generationCall] ++ rest :=
  pending_write_position envOK (by decide)

/-- C4 counterexample: with a question id that does not resolve, the
invocation does propagate the not-found error, but the catch handler
attempts a failed-status write — the claim that no status write is
attempted is false. -/
theorem not_found_counterexample :
    (generateAnswer envNF).2 = Except.error PipelineError.questionNotFound ∧
    Event.statusWrite Status.failed ∈ (generateAnswer envNF).1 :=
  ⟨rfl, by decide⟩

/-- C4 (amended): if the question fetch does not yield a row
(unsuccessful response or missing data), generateAnswer throws the
not-found error and performs no pending or answered write; the only
status mutation attempted is the failed-status write of the catch
handler, after which the not-found error is propagated. -/
theorem not_found_aborts (env : Env)
    (h : (questionsService.getQuestionById env.questionOutcome).success = false ∨
         (questionsService.getQuestionById env.questionOutcome).data = none) :
    generateAnswer env =
      ([Event.fetchQuestion, Event.statusWrite Status.failed],
       Except.error PipelineError.questionNotFound) := by
  obtain ⟨qo, ed, qe, simf, gen, po, ao, awo, fo⟩ := env
  cases qo with
  | ok q => simp [questionsService.getQuestionById] at h
  | storeError m => rfl
  | thrown exc => rfl

/-- C4 witness: the store answers the question fetch with an error
row. -/
theorem not_found_aborts_witness :
    generateAnswer envNF =
      ([Event.fetchQuestion, Event.statusWrite Status.failed],
       Except.error PipelineError.questionNotFound) :=
  not_found_aborts envNF (by decide)

/-- C5 (failure protocol): whenever the try block fails after the
pending write, the catch handler appends exactly one failed-status
write and propagates the original error; the outcome of that
failed-status write (`failedWriteOutcome`, whose ApiResponse the
source discards and which, by the questionsService definitions, never
throws) has no influence on the propagated error. -/
theorem failure_protocol (env : Env) (e : PipelineError)
    (hp : Event.statusWrite Status.pending ∈ (pipelineBody env).1)
    (he : (pipelineBody env).2 = Except.error e) :
    (generateAnswer env).2 = Except.error e ∧
    (generateAnswer env).1 = (pipelineBody env).1 ++ [Event.statusWrite Status.failed] ∧
    ∀ o : StoreOutcome Question,
      (generateAnswer { env with failedWriteOutcome := o }).2 = Except.error e := by
  obtain ⟨qo, ed, qe, simf, gen, po, ao, awo, fo⟩ := env
  have hfw : ∀ o : StoreOutcome Question,
      pipelineBody { Env.mk qo ed qe simf gen po ao awo fo with failedWriteOutcome := o } =
        pipelineBody (Env.mk qo ed qe simf gen po ao awo fo) := fun o => rfl
  rcases hpb : pipelineBody (Env.mk qo ed qe simf gen po ao awo fo) with ⟨t, r⟩
  cases r with
  | ok s =>
    rw [hpb] at he
    exact absurd he (by simp)
  | error e₀ =>
    rw [hpb] at he
    have he₀ : e₀ = e := by simpa using he
    subst he₀
    refine ⟨?_, ?_, ?_⟩
    · simp [generateAnswer, hpb]
    · simp [generateAnswer, hpb]
    · intro o
      simp [generateAnswer, hfw o, hpb]

/-- C5 witness: the empty-generation environment fails after the
pending write with the no-answer error, which is propagated whatever
the outcome of the failed-status write. -/
theorem failure_protocol_witness :
    (generateAnswer envEmptyGen).2 = Except.error PipelineError.noAnswerGenerated ∧
    (generateAnswer envEmptyGen).1 =
      (pipelineBody envEmptyGen).1 ++ [Event.statusWrite Status.failed] ∧
    ∀ o : StoreOutcome Question,
      (generateAnswer { envEmptyGen with failedWriteOutcome := o }).2 =
        Except.error PipelineError.noAnswerGenerated :=
  failure_protocol envEmptyGen PipelineError.noAnswerGenerated (by decide) rfl

/-- C9 (empty-response frame): if an invocation reaches the generation
call and the provider returns missing or empty text content, the run
throws the no-answer error (the EmptyResponse class), attempts the
failed-status write, and performs no answer write at all in that
invocation. -/
theorem empty_response_fails (env : Env)
    (hreach : Event.generationCall ∈ (pipelineBody env).1)
    (hempty : env.generation = some none ∨ env.generation = some (some "")) :
    (generateAnswer env).2 = Except.error PipelineError.noAnswerGenerated ∧
    Event.statusWrite Status.failed ∈ (generateAnswer env).1 ∧
    ∀ s, Event.answerWrite s ∉ (generateAnswer env).1 := by
  have hbp := pipelineBody_eq_afterPrompt env hreach
  have hap : afterPrompt env =
      ([Event.fetchQuestion, Event.vectorStoreRead, Event.embeddingCall,
        Event.statusWrite Status.pending, Event.generationCall],
       Except.error PipelineError.noAnswerGenerated) := by
    rcases hempty with hg | hg <;> simp [afterPrompt, hg]
  rw [hap] at hbp
  refine ⟨?_, ?_, ?_⟩
  · simp [generateAnswer, hbp]
  · simp [generateAnswer, hbp]
  · intro s
    simp [generateAnswer, hbp]

/-- C9 witness: the provider answers with the empty string. -/
theorem empty_response_fails_witness :
    (generateAnswer envEmptyGen).2 = Except.error PipelineError.noAnswerGenerated ∧
    Event.statusWrite Status.failed ∈ (generateAnswer envEmptyGen).1 ∧
    ∀ s, Event.answerWrite s ∉ (generateAnswer envEmptyGen).1 :=
  empty_response_fails envEmptyGen (by decide) (Or.inr rfl)

/-- C10 (total error channel of the question store adapter): every
questionsService operation is a total function into ApiResponse — it
cannot throw — and for every store outcome it behaves uniformly: a
resolved row yields `success = true` carrying the requested data (list
reads coalesce a null row set to `[]`, the delete carries no data), a
store error object yields `success = false` with that error message,
and a thrown exception is swallowed and converted to `success = false`
with the operation-specific fixed message. -/
theorem questionsService_error_channel :
    (∀ q : Question, questionsService.createQuestion (StoreOutcome.ok q) =
      { success := true, data := some q, message := some "Question created successfully" }) ∧
    (∀ m, questionsService.createQuestion (StoreOutcome.storeError m) =
      { success := false, error := some m }) ∧
    (∀ exc, questionsService.createQuestion (StoreOutcome.thrown exc) =
      { success := false, error := some "Failed to create question" }) ∧
    (∀ d, questionsService.getUserQuestions (StoreOutcome.ok d) =
      { success := true, data := some (d.getD []) }) ∧
    (∀ m, questionsService.getUserQuestions (StoreOutcome.storeError m) =
      { success := false, error := some m }) ∧
    (∀ exc, questionsService.getUserQuestions (StoreOutcome.thrown exc) =
      { success := false, error := some "Failed to fetch user questions" }) ∧
    (∀ q : Question, questionsService.getQuestionById (StoreOutcome.ok q) =
      { success := true, data := some q }) ∧
    (∀ m, questionsService.getQuestionById (StoreOutcome.storeError m) =
      { success := false, error := some m }) ∧
    (∀ exc, questionsService.getQuestionById (StoreOutcome.thrown exc) =
      { success := false, error := some "Failed to fetch question" }) ∧
    (∀ q : Question, questionsService.updateQuestionAnswer (StoreOutcome.ok q) =
      { success := true, data := some q, message := some "Question answered successfully" }) ∧
    (∀ m, questionsService.updateQuestionAnswer (StoreOutcome.storeError m) =
      { success := false, error := some m }) ∧
    (∀ exc, questionsService.updateQuestionAnswer (StoreOutcome.thrown exc) =
      { success := false, error := some "Failed to update question answer" }) ∧
    (∀ q : Question, questionsService.updateQuestionStatus (StoreOutcome.ok q) =
      { success := true, data := some q, message := some "Question status updated successfully" }) ∧
    (∀ m, questionsService.updateQuestionStatus (StoreOutcome.storeError m) =
      { success := false, error := some m }) ∧
    (∀ exc, questionsService.updateQuestionStatus (StoreOutcome.thrown exc) =
      { success := false, error := some "Failed to update question status" }) ∧
    (questionsService.deleteQuestion (StoreOutcome.ok ()) =
      { success := true, message := some "Question deleted successfully" }) ∧
    (∀ m, questionsService.deleteQuestion (StoreOutcome.storeError m) =
      { success := false, error := some m }) ∧
    (∀ exc, questionsService.deleteQuestion (StoreOutcome.thrown exc) =
      { success := false, error := some "Failed to delete question" }) ∧
    (∀ d, questionsService.getQuestionsByStatus (StoreOutcome.ok d) =
      { success := true, data := some (d.getD []) }) ∧
    (∀ m, questionsService.getQuestionsByStatus (StoreOutcome.storeError m) =
      { success := false, error := some m }) ∧
    (∀ exc, questionsService.getQuestionsByStatus (StoreOutcome.thrown exc) =
      { success := false, error := some "Failed to fetch questions by status" }) ∧
    (∀ d, questionsService.getRecentQuestions (StoreOutcome.ok d) =
      { success := true, data := some (d.getD []) }) ∧
    (∀ m, questionsService.getRecentQuestions (StoreOutcome.storeError m) =
      { success := false, error := some m }) ∧
    (∀ exc, questionsService.getRecentQuestions (StoreOutcome.thrown exc) =
      { success := false, error := some "Failed to fetch recent questions" }) ∧
    (∀ d, questionsService.getQuestionsByTitle (StoreOutcome.ok d) =
      { success := true, data := some (d.getD []) }) ∧
    (∀ m, questionsService.getQuestionsByTitle (StoreOutcome.storeError m) =
      { success := false, error := some m }) ∧
    (∀ exc, questionsService.getQuestionsByTitle (StoreOutcome.thrown exc) =
      { success := false, error := some "Failed to fetch questions by title" }) :=
  ⟨fun _ => rfl, fun _ => rfl, fun _ => rfl,
   fun _ => rfl, fun _ => rfl, fun _ => rfl,
   fun _ => rfl, fun _ => rfl, fun _ => rfl,
   fun _ => rfl, fun _ => rfl, fun _ => rfl,
   fun _ => rfl, fun _ => rfl, fun _ => rfl,
   rfl, fun _ => rfl, fun _ => rfl,
   fun _ => rfl, fun _ => rfl, fun _ => rfl,
   fun _ => rfl, fun _ => rfl, fun _ => rfl,
   fun _ => rfl, fun _ => rfl, fun _ => rfl⟩
